import Mathlib

/-!
Shallow embedding of the concert-ticketing backend (Express + Prisma).
The embedded operations follow the handlers in:
  - src/routes/order.ts      (REST order creation, read, cancel)
  - src/routes/ticket.ts     (REST ticket use)
  - src/routes/payment.ts    (payment creation, webhook; the unnamed payment
    router file)
  - src/schema/resolvers.ts  (GraphQL mutations)
The database is modelled as lists of rows; Prisma update/upsert calls become
pure list transformations.  Wall-clock time is a Nat parameter passed only to
the handlers that actually read the clock in the source.  The random ticket
codes (crypto.randomUUID) are modelled by a fresh-name counter stored in the
database state.
-/

namespace Ticketing

inductive OrderStatus where
  | PENDING
  | AWAITING_PAYMENT
  | PAID
  | CANCELLED
  | EXPIRED
  | REFUNDED
deriving DecidableEq

inductive PaymentStatus where
  | PENDING
  | SETTLED
  | FAILED
  | EXPIRED
  | CANCELLED
deriving DecidableEq

inductive TicketStatus where
  | ISSUED
  | USED
  | VOID
deriving DecidableEq

/-- Rendering used by the ticket route in template strings such as
`Ticket already ${ticket.status}`. -/
def TicketStatus.text : TicketStatus → String
  | .ISSUED => "ISSUED"
  | .USED => "USED"
  | .VOID => "VOID"

structure TicketType where
  id : String
  concertId : String
  name : String
  price : Nat
  quotaTotal : Nat
  quotaSold : Nat
deriving DecidableEq

structure OrderItem where
  ticketTypeId : String
  qty : Nat
  unitPrice : Nat
  subtotal : Nat
deriving DecidableEq

structure Order where
  id : String
  userId : String
  concertId : String
  midtransOrderId : String
  grossAmount : Nat
  expiresAt : Nat
  status : OrderStatus
  orderItems : List OrderItem
deriving DecidableEq

/-- The fields of the Midtrans webhook body that the handlers read, plus the
signature field that the provider sends and that an authenticating handler
would have to verify. -/
structure Notification where
  order_id : String
  transaction_status : String
  fraud_status : Option String
  signature_key : Option String
deriving DecidableEq

structure Payment where
  orderId : String
  provider : String
  status : PaymentStatus
  snapToken : Option String
  transactionStatus : Option String
  fraudStatus : Option String
  rawPayloadJson : Option Notification
deriving DecidableEq

structure Ticket where
  id : String
  orderId : String
  userId : String
  concertId : String
  ticketTypeId : String
  code : String
  status : TicketStatus
  usedAt : Option Nat
deriving DecidableEq

structure DB where
  ticketTypes : List TicketType
  orders : List Order
  payments : List Payment
  tickets : List Ticket
  nextCode : Nat
deriving DecidableEq

structure RouteResult where
  http : Nat
  db : DB
deriving DecidableEq

structure TicketRouteResult where
  http : Nat
  message : String
  db : DB
deriving DecidableEq

/-- Prisma-style conditional update: apply `f` to every row matching `p`.
All Prisma `update` calls keyed by a field become instances of this. -/
def updateWhere {α : Type} (p : α → Bool) (f : α → α) (l : List α) : List α :=
  l.map (fun a => if p a then f a else a)

def findTicketType (db : DB) (id : String) : Option TicketType :=
  db.ticketTypes.find? (fun t => t.id == id)

def quotaSoldOf (db : DB) (id : String) : Option Nat :=
  (findTicketType db id).map (fun t => t.quotaSold)

def quotaTotalOf (db : DB) (id : String) : Option Nat :=
  (findTicketType db id).map (fun t => t.quotaTotal)

def priceOf (db : DB) (id : String) : Option Nat :=
  (findTicketType db id).map (fun t => t.price)

def findOrderById (db : DB) (id : String) : Option Order :=
  db.orders.find? (fun o => o.id == id)

def orderStatusOf (db : DB) (id : String) : Option OrderStatus :=
  (findOrderById db id).map (fun o => o.status)

def paymentFor (db : DB) (orderId : String) : Option Payment :=
  db.payments.find? (fun p => p.orderId == orderId)

def paymentStatusOf (db : DB) (orderId : String) : Option PaymentStatus :=
  (paymentFor db orderId).map (fun p => p.status)

def rawPayloadOf (db : DB) (orderId : String) : Option (Option Notification) :=
  (paymentFor db orderId).map (fun p => p.rawPayloadJson)

def ticketFor (db : DB) (code : String) : Option Ticket :=
  db.tickets.find? (fun t => t.code == code)

def ticketStatusOf (db : DB) (code : String) : Option TicketStatus :=
  (ticketFor db code).map (fun t => t.status)

def usedAtOf (db : DB) (code : String) : Option (Option Nat) :=
  (ticketFor db code).map (fun t => t.usedAt)

/-- `prisma.order.update({where: {id}, data: {status}})`. -/
def setOrderStatus (orders : List Order) (id : String) (s : OrderStatus) :
    List Order :=
  updateWhere (fun o => o.id == id) (fun o => { o with status := s }) orders

/-- `prisma.payment.upsert({where: {orderId}, create, update})`. -/
def upsertPayment (payments : List Payment) (orderId : String)
    (createRow : Payment) (upd : Payment → Payment) : List Payment :=
  if payments.any (fun p => p.orderId == orderId) then
    updateWhere (fun p => p.orderId == orderId) upd payments
  else
    payments ++ [createRow]

/-- The webhook status mapping of src/routes/payment.ts lines 282-311.
JavaScript `!fraudStatus` is true when the field is undefined, null or the
empty string, so the accept branch also fires on an absent or empty verdict. -/
def mapStatuses (ts : String) (fs : Option String) (cur : OrderStatus) :
    PaymentStatus × OrderStatus :=
  if ts = "capture" ∨ ts = "settlement" then
    if fs = some "accept" ∨ fs = none ∨ fs = some "" then
      (.SETTLED, .PAID)
    else
      (.FAILED, .CANCELLED)
  else if ts = "pending" then (.PENDING, .AWAITING_PAYMENT)
  else if ts = "deny" ∨ ts = "cancel" then (.CANCELLED, .CANCELLED)
  else if ts = "expire" then (.EXPIRED, .EXPIRED)
  else if ts = "refund" then (.CANCELLED, .REFUNDED)
  else (.PENDING, cur)

/-- Ticket rows created by the webhook for one order: for each order item,
`qty` tickets, each with a fresh code drawn from the counter. -/
def mkTickets (o : Order) : List OrderItem → Nat → List Ticket
  | [], _ => []
  | item :: rest, c =>
      (List.range item.qty).map (fun i =>
        { id := s!"tkt-{c + i}"
          orderId := o.id
          userId := o.userId
          concertId := o.concertId
          ticketTypeId := item.ticketTypeId
          code := s!"TKT-{c + i}"
          status := .ISSUED
          usedAt := none }) ++ mkTickets o rest (c + item.qty)

/-- One `prisma.ticketType.update({data: {quotaSold: {increment: qty}}})`. -/
def incQuota (tts : List TicketType) (ttId : String) (q : Nat) :
    List TicketType :=
  updateWhere (fun t => t.id == ttId)
    (fun t => { t with quotaSold := t.quotaSold + q }) tts

/-- The per-item quota increment loop of the webhook. -/
def applyQuotaIncrements (tts : List TicketType) (items : List OrderItem) :
    List TicketType :=
  items.foldl (fun acc item => incQuota acc item.ticketTypeId item.qty) tts

/-- The payment upsert and order status write of the webhook (the two writes
of src/routes/payment.ts lines 313-336). -/
def applyNotification (db : DB) (order : Order) (n : Notification)
    (paymentStatus : PaymentStatus) (orderStatus : OrderStatus) : DB :=
  { db with
    payments := upsertPayment db.payments order.id
      { orderId := order.id
        provider := "MIDTRANS"
        status := paymentStatus
        snapToken := none
        transactionStatus := some n.transaction_status
        fraudStatus := n.fraud_status
        rawPayloadJson := some n }
      (fun p =>
        { p with
          status := paymentStatus
          transactionStatus := some n.transaction_status
          fraudStatus := n.fraud_status
          rawPayloadJson := some n })
    orders := setOrderStatus db.orders order.id orderStatus }

/-- The ticket creation and quota increment block of the webhook
(src/routes/payment.ts lines 342-373). -/
def issueTicketsAndQuota (db : DB) (order : Order) : DB :=
  { db with
    tickets := db.tickets ++ mkTickets order order.orderItems db.nextCode
    ticketTypes := applyQuotaIncrements db.ticketTypes order.orderItems
    nextCode := db.nextCode + (mkTickets order order.orderItems db.nextCode).length }

/-- POST /payments/webhook (src/routes/payment.ts lines 257-381).
Looks the order up by `midtransOrderId`, maps the provider status, upserts the
payment row with the raw payload, writes the order status, and, when the
mapped pair is (SETTLED, PAID), creates the ticket batch and increments
`quotaSold` per item.  No signature verification and no check of the current
order or payment state happens anywhere in the handler. -/
def webhook (db : DB) (n : Notification) : RouteResult :=
  match db.orders.find? (fun o => o.midtransOrderId == n.order_id) with
  | none => { http := 404, db := db }
  | some order =>
    match mapStatuses n.transaction_status n.fraud_status order.status with
    | (paymentStatus, orderStatus) =>
      if paymentStatus = .SETTLED ∧ orderStatus = .PAID then
        if (mkTickets order order.orderItems db.nextCode).length > 0 then
          { http := 200
            db := issueTicketsAndQuota
              (applyNotification db order n paymentStatus orderStatus) order }
        else
          { http := 200, db := applyNotification db order n paymentStatus orderStatus }
      else
        { http := 200, db := applyNotification db order n paymentStatus orderStatus }

/-- Items of the body of POST /orders (src/routes/order.ts lines 50-105). -/
structure CreateItem where
  ticketTypeId : String
  qty : Nat
deriving DecidableEq

/-- The per-item mapping of src/routes/order.ts lines 61-83: each item loads
its TicketType (error when missing) and snapshots `unitPrice` and
`subtotal`. The existence of the ticket type is the only check; membership in
the requested concert is not inspected. -/
def buildOrderItems (db : DB) : List CreateItem → Except String (List OrderItem)
  | [] => .ok []
  | item :: rest =>
    match findTicketType db item.ticketTypeId with
    | none => .error "Ticket type tidak ditemukan"
    | some tt =>
      match buildOrderItems db rest with
      | .error e => .error e
      | .ok tail =>
        .ok ({ ticketTypeId := item.ticketTypeId
               qty := item.qty
               unitPrice := tt.price
               subtotal := tt.price * item.qty } :: tail)

/-- POST /orders (src/routes/order.ts lines 50-105).  On any error the route
responds 400 and nothing is written, which the `Except.error` branch models by
returning no database.  `concertId = ""` models the JavaScript falsiness check
`!concertId`; the row id and `midtransOrderId` come from the fresh-name
counter, standing in for randomUUID. -/
def createOrder (db : DB) (userId concertId : String) (items : List CreateItem)
    (now : Nat) : Except String (DB × Order) :=
  if concertId = "" ∨ items.isEmpty then
    .error "Data order tidak lengkap"
  else
    match buildOrderItems db items with
    | .error e => .error e
    | .ok oitems =>
      let o : Order :=
        { id := s!"order-{db.nextCode}"
          userId := userId
          concertId := concertId
          midtransOrderId := s!"ORDER-{db.nextCode}"
          grossAmount := (oitems.map (fun i => i.subtotal)).sum
          expiresAt := now + 15 * 60 * 1000
          status := .PENDING
          orderItems := oitems }
      .ok ({ db with orders := db.orders ++ [o], nextCode := db.nextCode + 1 }, o)

/-- GET /orders/:id (src/routes/order.ts lines 153-167).  A pure read: the
handler never consults the clock and performs no write. -/
def getOrder (db : DB) (userId id : String) : Option Order :=
  db.orders.find? (fun o => o.id == id && o.userId == userId)

/-- PUT /orders/:id/cancel (src/routes/order.ts lines 192-220).  Rejects only
when the order is missing (404) or its status is not PENDING (400); the
expiry timestamp is never consulted. -/
def cancelOrder (db : DB) (userId id : String) : RouteResult :=
  match db.orders.find? (fun o => o.id == id && o.userId == userId) with
  | none => { http := 404, db := db }
  | some o =>
    if o.status = .PENDING then
      { http := 200, db := { db with orders := setOrderStatus db.orders id .CANCELLED } }
    else
      { http := 400, db := db }

/-- POST /payments/:orderId/create (src/routes/payment.ts lines 57-172).
The only place where an expired order is lazily transitioned to EXPIRED.
The Snap token returned by the gateway is opaque to every claim and is
modelled by a constant. -/
def createPayment (db : DB) (userId orderId : String) (now : Nat) : RouteResult :=
  match db.orders.find? (fun o => o.id == orderId && o.userId == userId) with
  | none => { http := 404, db := db }
  | some o =>
    if o.status = .PENDING then
      if now > o.expiresAt then
        { http := 400
          db := { db with orders := setOrderStatus db.orders orderId .EXPIRED } }
      else
        { http := 200
          db :=
            { db with
              orders := setOrderStatus db.orders orderId .AWAITING_PAYMENT
              payments := upsertPayment db.payments orderId
                { orderId := orderId
                  provider := "MIDTRANS"
                  status := .PENDING
                  snapToken := some "snap-token"
                  transactionStatus := none
                  fraudStatus := none
                  rawPayloadJson := none }
                (fun p => { p with snapToken := some "snap-token", status := .PENDING }) } }
    else
      { http := 400, db := db }

/-- PUT /tickets/:code/use (src/routes/ticket.ts lines 167-203). -/
def useTicket (db : DB) (code : String) (now : Nat) : TicketRouteResult :=
  match db.tickets.find? (fun t => t.code == code) with
  | none => { http := 404, message := "Ticket not found", db := db }
  | some t =>
    if t.status = .ISSUED then
      { http := 200
        message := "Ticket successfully used"
        db :=
          { db with
            tickets := updateWhere (fun u => u.code == code)
              (fun u => { u with status := .USED, usedAt := some now }) db.tickets } }
    else
      { http := 400, message := "Ticket already " ++ t.status.text, db := db }

/-- Items of the GraphQL CreateOrderInput: unit price and subtotal are part of
the client-supplied input (src/schema/resolvers.ts lines 191-227). -/
structure GqlItemInput where
  ticketTypeId : String
  qty : Nat
  unitPrice : Nat
  subtotal : Nat
deriving DecidableEq

structure GqlCreateOrderInput where
  userId : String
  concertId : String
  grossAmount : Nat
  expiresAt : Nat
  items : List GqlItemInput
deriving DecidableEq

/-- GraphQL Mutation.createOrder (src/schema/resolvers.ts lines 191-227):
stores the client-supplied grossAmount, unitPrice and subtotal verbatim,
without loading any TicketType. -/
def gqlCreateOrder (db : DB) (input : GqlCreateOrderInput) : DB × Order :=
  let o : Order :=
    { id := s!"order-{db.nextCode}"
      userId := input.userId
      concertId := input.concertId
      midtransOrderId := s!"ORDER-{db.nextCode}"
      grossAmount := input.grossAmount
      expiresAt := input.expiresAt
      status := .PENDING
      orderItems := input.items.map (fun i =>
        { ticketTypeId := i.ticketTypeId
          qty := i.qty
          unitPrice := i.unitPrice
          subtotal := i.subtotal }) }
  ({ db with orders := db.orders ++ [o], nextCode := db.nextCode + 1 }, o)

/-- GraphQL Mutation.updateOrderStatus (src/schema/resolvers.ts lines
229-279): writes any requested status unconditionally and, when the requested
status is PAID, creates a fresh ticket batch (without touching quotaSold).
`none` models the thrown Prisma error for an unknown id. -/
def gqlUpdateOrderStatus (db : DB) (id : String) (s : OrderStatus) : Option DB :=
  match db.orders.find? (fun o => o.id == id) with
  | none => none
  | some o =>
    let db1 : DB := { db with orders := setOrderStatus db.orders id s }
    if s = .PAID then
      let newTickets := mkTickets o o.orderItems db.nextCode
      some { db1 with
             tickets := db1.tickets ++ newTickets
             nextCode := db1.nextCode + newTickets.length }
    else
      some db1

/-- GraphQL Mutation.cancelOrder (src/schema/resolvers.ts lines 281-285):
unconditional status write, no state check of any kind. -/
def gqlCancelOrder (db : DB) (id : String) : Option DB :=
  match db.orders.find? (fun o => o.id == id) with
  | none => none
  | some _ => some { db with orders := setOrderStatus db.orders id .CANCELLED }

/-- GraphQL Mutation.useTicket (src/schema/resolvers.ts lines 288-295):
unconditional update, no check that the ticket is still ISSUED. -/
def gqlUseTicket (db : DB) (code : String) (now : Nat) : Option (DB × Ticket) :=
  match db.tickets.find? (fun t => t.code == code) with
  | none => none
  | some t =>
    some
      ({ db with
         tickets := updateWhere (fun u => u.code == code)
           (fun u => { u with status := .USED, usedAt := some now }) db.tickets },
       { t with status := .USED, usedAt := some now })

/-- GraphQL Mutation.voidTicket (src/schema/resolvers.ts lines 297-301):
unconditional status write by ticket id. -/
def gqlVoidTicket (db : DB) (id : String) : Option DB :=
  match db.tickets.find? (fun t => t.id == id) with
  | none => none
  | some _ =>
    some { db with
           tickets := updateWhere (fun t => t.id == id)
             (fun t => { t with status := .VOID }) db.tickets }

/-- Input of GraphQL Mutation.updateTicketType; absent fields leave the row
unchanged (src/schema/resolvers.ts lines 160-185). -/
structure UpdateTicketTypeInput where
  name : Option String
  price : Option Nat
  quotaTotal : Option Nat
deriving DecidableEq

/-- GraphQL Mutation.updateTicketType: updates catalog fields of one
TicketType; `quotaSold` is not part of the input and is never written. -/
def gqlUpdateTicketType (db : DB) (id : String) (input : UpdateTicketTypeInput) :
    DB :=
  { db with
    ticketTypes := updateWhere (fun t => t.id == id)
      (fun t =>
        { t with
          name := input.name.getD t.name
          price := input.price.getD t.price
          quotaTotal := input.quotaTotal.getD t.quotaTotal }) db.ticketTypes }

/-- Modelled from the spec: the section 4.3 mapping table from provider
transaction status and optional fraud verdict to the target Payment and Order
statuses; `none` when the provider status is not one of the six rows.  In the
accept row, an absent verdict covers both a missing field and an empty one,
since an empty `fraud_status` carries no verdict. -/
def specStatusTable (ts : String) (fs : Option String) :
    Option (PaymentStatus × OrderStatus) :=
  if ts = "capture" ∨ ts = "settlement" then
    if fs = some "accept" ∨ fs = none ∨ fs = some "" then
      some (.SETTLED, .PAID)
    else
      some (.FAILED, .CANCELLED)
  else if ts = "pending" then some (.PENDING, .AWAITING_PAYMENT)
  else if ts = "deny" ∨ ts = "cancel" then some (.CANCELLED, .CANCELLED)
  else if ts = "expire" then some (.EXPIRED, .EXPIRED)
  else if ts = "refund" then some (.CANCELLED, .REFUNDED)
  else none

/-- One reachable state change of the system: every state-mutating handler of
the REST and GraphQL surfaces, applied to an arbitrary request. -/
inductive Step : DB → DB → Prop
  | webhook (db : DB) (n : Notification) : Step db (Ticketing.webhook db n).db
  | createOrder (db db' : DB) (u c : String) (items : List CreateItem) (now : Nat)
      (o : Order) (h : Ticketing.createOrder db u c items now = .ok (db', o)) :
      Step db db'
  | cancelOrder (db : DB) (u id : String) : Step db (Ticketing.cancelOrder db u id).db
  | createPayment (db : DB) (u oid : String) (now : Nat) :
      Step db (Ticketing.createPayment db u oid now).db
  | useTicket (db : DB) (code : String) (now : Nat) :
      Step db (Ticketing.useTicket db code now).db
  | gqlCreateOrder (db : DB) (input : GqlCreateOrderInput) :
      Step db (Ticketing.gqlCreateOrder db input).1
  | gqlUpdateOrderStatus (db db' : DB) (id : String) (s : OrderStatus)
      (h : Ticketing.gqlUpdateOrderStatus db id s = some db') : Step db db'
  | gqlCancelOrder (db db' : DB) (id : String)
      (h : Ticketing.gqlCancelOrder db id = some db') : Step db db'
  | gqlUseTicket (db : DB) (code : String) (now : Nat) (db' : DB) (t : Ticket)
      (h : Ticketing.gqlUseTicket db code now = some (db', t)) : Step db db'
  | gqlVoidTicket (db db' : DB) (id : String)
      (h : Ticketing.gqlVoidTicket db id = some db') : Step db db'
  | gqlUpdateTicketType (db : DB) (id : String) (input : UpdateTicketTypeInput) :
      Step db (Ticketing.gqlUpdateTicketType db id input)

/-! ### Concrete fixtures used by the counterexamples and witnesses -/

def ttVip : TicketType :=
  { id := "tt1", concertId := "c1", name := "VIP"
    price := 100, quotaTotal := 10, quotaSold := 0 }

def itemVip : OrderItem :=
  { ticketTypeId := "tt1", qty := 1, unitPrice := 100, subtotal := 100 }

def orderAwaiting : Order :=
  { id := "o1", userId := "u1", concertId := "c1", midtransOrderId := "ORDER-1"
    grossAmount := 100, expiresAt := 1000, status := .AWAITING_PAYMENT
    orderItems := [itemVip] }

def dbAwaiting : DB :=
  { ticketTypes := [ttVip], orders := [orderAwaiting], payments := []
    tickets := [], nextCode := 0 }

def nSettle : Notification :=
  { order_id := "ORDER-1", transaction_status := "settlement"
    fraud_status := some "accept", signature_key := none }

def nForged : Notification :=
  { order_id := "ORDER-1", transaction_status := "settlement"
    fraud_status := some "accept", signature_key := some "bogus-signature" }

def nPendingLate : Notification :=
  { order_id := "ORDER-1", transaction_status := "pending"
    fraud_status := none, signature_key := none }

def ttScarce : TicketType :=
  { id := "tt2", concertId := "c1", name := "Last seat"
    price := 50, quotaTotal := 1, quotaSold := 1 }

def orderScarce : Order :=
  { id := "o2", userId := "u2", concertId := "c1", midtransOrderId := "ORDER-2"
    grossAmount := 50, expiresAt := 1000, status := .AWAITING_PAYMENT
    orderItems := [{ ticketTypeId := "tt2", qty := 1, unitPrice := 50, subtotal := 50 }] }

def dbScarce : DB :=
  { ticketTypes := [ttScarce], orders := [orderScarce], payments := []
    tickets := [], nextCode := 0 }

def nSettleScarce : Notification :=
  { order_id := "ORDER-2", transaction_status := "settlement"
    fraud_status := none, signature_key := none }

/-! ### Lemmas about the row-update helpers -/

theorem find?_map_of_pred_preserved {α : Type} (p : α → Bool) (g : α → α)
    (hg : ∀ a, p (g a) = p a) (l : List α) :
    (l.map g).find? p = (l.find? p).map g := by
  induction l with
  | nil => rfl
  | cons a l ih =>
    by_cases h : p a = true
    · rw [List.map_cons, List.find?_cons_of_pos _ ((hg a).trans h),
        List.find?_cons_of_pos _ h, Option.map_some']
    · rw [List.map_cons, List.find?_cons_of_neg _ (by rw [hg a]; exact h),
        List.find?_cons_of_neg _ h, ih]

theorem find?_updateWhere {α : Type} (p : α → Bool) (f : α → α)
    (hf : ∀ a, p a = true → p (f a) = true) (l : List α) :
    (updateWhere p f l).find? p
      = (l.find? p).map (fun a => if p a then f a else a) := by
  unfold updateWhere
  refine find?_map_of_pred_preserved p _ (fun a => ?_) l
  by_cases h : p a = true
  · simp [h, hf a h]
  · have h' : p a = false := by simpa using h
    simp [h']

theorem statusOf_setOrderStatus (orders : List Order) (id : String)
    (s : OrderStatus) (h : ∃ o ∈ orders, (o.id == id) = true) :
    ((setOrderStatus orders id s).find? (fun o => o.id == id)).map
        (fun o => o.status) = some s := by
  unfold setOrderStatus
  rw [find?_updateWhere _ _ (fun o ho => by simpa using ho)]
  have hsome := List.find?_isSome.mpr h
  cases hf : orders.find? (fun o => o.id == id) with
  | none => rw [hf] at hsome; simp at hsome
  | some o =>
    have hp : o.id = id := by simpa using List.find?_some hf
    simp [hp]

theorem paymentFor_upsertPayment (ps : List Payment) (oid : String)
    (c : Payment) (u : Payment → Payment)
    (hc : (c.orderId == oid) = true) (hu : ∀ p, (u p).orderId = p.orderId) :
    (upsertPayment ps oid c u).find? (fun p => p.orderId == oid)
      = match ps.find? (fun p => p.orderId == oid) with
        | some p => some (u p)
        | none => some c := by
  unfold upsertPayment
  by_cases h : ps.any (fun p => p.orderId == oid) = true
  · rw [if_pos h]
    rw [find?_updateWhere _ _ (fun p hp => by rw [hu p]; exact hp)]
    have hsome := List.find?_isSome.mpr (List.any_eq_true.mp h)
    cases hf : ps.find? (fun p => p.orderId == oid) with
    | none => rw [hf] at hsome; simp at hsome
    | some p0 =>
      have hp : p0.orderId = oid := by simpa using List.find?_some hf
      simp [hp]
  · rw [if_neg h]
    have hnone : ps.find? (fun p => p.orderId == oid) = none := by
      refine List.find?_eq_none.mpr (fun x hx hpx => ?_)
      exact h (List.any_eq_true.mpr ⟨x, hx, hpx⟩)
    have hcc : List.find? (fun p => p.orderId == oid) [c] = some c :=
      List.find?_cons_of_pos _ hc
    rw [List.find?_append, hnone, hcc]
    simp

/-! ### Claim theorems -/

/-- C1: the claim says a second delivery of the same terminal settlement
notification is a no-op that still returns success, with exactly one ticket
batch ever created and the quota increments applied exactly once.  The webhook
handler has no idempotency guard: on the concrete order below the second
identical settlement delivery again returns 200 and leaves both statuses at
(SETTLED, PAID), but it creates a second full ticket batch and increments
`quotaSold` a second time. -/
theorem C1_duplicate_settlement_reissues_tickets :
    ((webhook dbAwaiting nSettle).db.tickets.length = 1
      ∧ quotaSoldOf (webhook dbAwaiting nSettle).db "tt1" = some 1
      ∧ orderStatusOf (webhook dbAwaiting nSettle).db "o1" = some .PAID
      ∧ paymentStatusOf (webhook dbAwaiting nSettle).db "o1" = some .SETTLED)
    ∧ ((webhook (webhook dbAwaiting nSettle).db nSettle).http = 200
      ∧ orderStatusOf (webhook (webhook dbAwaiting nSettle).db nSettle).db "o1"
          = some .PAID
      ∧ paymentStatusOf (webhook (webhook dbAwaiting nSettle).db nSettle).db "o1"
          = some .SETTLED
      ∧ (webhook (webhook dbAwaiting nSettle).db nSettle).db.tickets.length = 2
      ∧ quotaSoldOf (webhook (webhook dbAwaiting nSettle).db nSettle).db "tt1"
          = some 2) := by
  decide

/-- C2: the claim says the webhook validates the payload signature and rejects
an unauthenticated payload with Unauthorized and no state change.  The handler
never reads any signature field: a payload carrying a bogus signature is
processed normally, returns 200 (not 401), flips the order to PAID, settles
the payment and issues a ticket. -/
theorem C2_webhook_trusts_unauthenticated_payload :
    (webhook dbAwaiting nForged).http = 200
    ∧ ¬ (webhook dbAwaiting nForged).http = 401
    ∧ orderStatusOf (webhook dbAwaiting nForged).db "o1" = some .PAID
    ∧ paymentStatusOf (webhook dbAwaiting nForged).db "o1" = some .SETTLED
    ∧ (webhook dbAwaiting nForged).db.tickets.length = 1
    ∧ ¬ (webhook dbAwaiting nForged).db = dbAwaiting := by
  decide

/-- C3: the claim says a terminal order status is never regressed to a
non-terminal one by a later webhook.  After a settlement has driven the
concrete order to PAID, a late `pending` notification is applied
unconditionally and moves the order back to AWAITING_PAYMENT. -/
theorem C3_pending_after_settlement_regresses_paid :
    orderStatusOf (webhook dbAwaiting nSettle).db "o1" = some .PAID
    ∧ (webhook (webhook dbAwaiting nSettle).db nPendingLate).http = 200
    ∧ orderStatusOf
        (webhook (webhook dbAwaiting nSettle).db nPendingLate).db "o1"
        = some .AWAITING_PAYMENT := by
  decide

/-- C4 counterexample: the claim says `quotaSold ≤ quotaTotal` holds after
every operation.  The settlement increment carries no bound check: on a ticket
type with `quotaTotal = 1` already fully sold, settling one more order pushes
`quotaSold` to 2. -/
theorem C4_counterexample_quota_exceeds_total :
    quotaTotalOf dbScarce "tt2" = some 1
    ∧ quotaSoldOf dbScarce "tt2" = some 1
    ∧ (webhook dbScarce nSettleScarce).http = 200
    ∧ quotaSoldOf (webhook dbScarce nSettleScarce).db "tt2" = some 2
    ∧ quotaTotalOf (webhook dbScarce nSettleScarce).db "tt2" = some 1 := by
  decide

theorem quotaSold_mono_map (g : TicketType → TicketType)
    (hid : ∀ t, (g t).id = t.id) (hq : ∀ t, t.quotaSold ≤ (g t).quotaSold)
    (tts : List TicketType) (id : String) (s : Nat)
    (hs : (tts.find? (fun t => t.id == id)).map (fun t => t.quotaSold) = some s) :
    ∃ s2, ((tts.map g).find? (fun t => t.id == id)).map (fun t => t.quotaSold)
        = some s2 ∧ s ≤ s2 := by
  rw [find?_map_of_pred_preserved _ g (fun t => by rw [hid t]) tts]
  obtain ⟨t0, ht0, hval⟩ := Option.map_eq_some'.mp hs
  rw [ht0]
  exact ⟨(g t0).quotaSold, rfl, hval ▸ hq t0⟩

theorem quotaSold_mono_updateWhere (p : TicketType → Bool)
    (f : TicketType → TicketType)
    (hid : ∀ t, (f t).id = t.id) (hq : ∀ t, t.quotaSold ≤ (f t).quotaSold)
    (tts : List TicketType) (id : String) (s : Nat)
    (hs : (tts.find? (fun t => t.id == id)).map (fun t => t.quotaSold) = some s) :
    ∃ s2, ((updateWhere p f tts).find? (fun t => t.id == id)).map
        (fun t => t.quotaSold) = some s2 ∧ s ≤ s2 := by
  refine quotaSold_mono_map (fun t => if p t then f t else t)
    (fun t => ?_) (fun t => ?_) tts id s hs
  · by_cases h : p t = true <;> simp [h, hid t]
  · by_cases h : p t = true <;> simp [h, hq t]

theorem quotaSold_mono_applyQuotaIncrements (items : List OrderItem) :
    ∀ (tts : List TicketType) (id : String) (s : Nat),
      (tts.find? (fun t => t.id == id)).map (fun t => t.quotaSold) = some s →
      ∃ s2, ((applyQuotaIncrements tts items).find? (fun t => t.id == id)).map
          (fun t => t.quotaSold) = some s2 ∧ s ≤ s2 := by
  induction items with
  | nil => exact fun tts id s hs => ⟨s, hs, Nat.le_refl s⟩
  | cons item rest ih =>
    intro tts id s hs
    obtain ⟨s1, hs1, hle1⟩ := quotaSold_mono_updateWhere
      (fun t => t.id == item.ticketTypeId)
      (fun t => { t with quotaSold := t.quotaSold + item.qty })
      (fun t => rfl) (fun t => Nat.le_add_right _ _) tts id s hs
    obtain ⟨s2, hs2, hle2⟩ := ih (incQuota tts item.ticketTypeId item.qty) id s1 hs1
    exact ⟨s2, hs2, Nat.le_trans hle1 hle2⟩

/-- The webhook either leaves the ticket-type table unchanged or applies the
per-item quota increments of some item list. -/
theorem webhook_ticketTypes (db : DB) (n : Notification) :
    (webhook db n).db.ticketTypes = db.ticketTypes
    ∨ ∃ items, (webhook db n).db.ticketTypes
        = applyQuotaIncrements db.ticketTypes items := by
  unfold webhook
  cases hf : db.orders.find? (fun o => o.midtransOrderId == n.order_id) with
  | none => exact Or.inl rfl
  | some o =>
    cases hm : mapStatuses n.transaction_status n.fraud_status o.status with
    | mk ps os =>
      dsimp only
      split
      · split
        · exact Or.inr ⟨o.orderItems, rfl⟩
        · exact Or.inl rfl
      · exact Or.inl rfl

theorem createOrder_preserves (db db' : DB) (u c : String)
    (items : List CreateItem) (now : Nat) (o : Order)
    (h : createOrder db u c items now = .ok (db', o)) :
    db'.ticketTypes = db.ticketTypes ∧ db'.payments = db.payments
      ∧ db'.tickets = db.tickets := by
  unfold createOrder at h
  split at h
  · exact absurd h (by simp)
  · split at h
    · exact absurd h (by simp)
    · simp only [Except.ok.injEq, Prod.mk.injEq] at h
      obtain ⟨hdb, _⟩ := h
      subst hdb
      exact ⟨rfl, rfl, rfl⟩

theorem cancelOrder_ticketTypes (db : DB) (u id : String) :
    (cancelOrder db u id).db.ticketTypes = db.ticketTypes := by
  unfold cancelOrder
  cases db.orders.find? (fun o => o.id == id && o.userId == u) with
  | none => rfl
  | some o =>
    dsimp only
    split <;> rfl

theorem createPayment_ticketTypes (db : DB) (u oid : String) (now : Nat) :
    (createPayment db u oid now).db.ticketTypes = db.ticketTypes := by
  unfold createPayment
  cases db.orders.find? (fun o => o.id == oid && o.userId == u) with
  | none => rfl
  | some o =>
    dsimp only
    split
    · split <;> rfl
    · rfl

theorem useTicket_ticketTypes (db : DB) (code : String) (now : Nat) :
    (useTicket db code now).db.ticketTypes = db.ticketTypes := by
  unfold useTicket
  cases db.tickets.find? (fun t => t.code == code) with
  | none => rfl
  | some t =>
    dsimp only
    split <;> rfl

theorem gqlUpdateOrderStatus_ticketTypes (db db' : DB) (id : String)
    (s : OrderStatus) (h : gqlUpdateOrderStatus db id s = some db') :
    db'.ticketTypes = db.ticketTypes := by
  unfold gqlUpdateOrderStatus at h
  split at h
  · exact absurd h (by simp)
  · split at h <;> · cases h; rfl

theorem gqlCancelOrder_ticketTypes (db db' : DB) (id : String)
    (h : gqlCancelOrder db id = some db') : db'.ticketTypes = db.ticketTypes := by
  unfold gqlCancelOrder at h
  split at h
  · exact absurd h (by simp)
  · cases h; rfl

theorem gqlUseTicket_ticketTypes (db db' : DB) (code : String) (now : Nat)
    (t : Ticket) (h : gqlUseTicket db code now = some (db', t)) :
    db'.ticketTypes = db.ticketTypes := by
  unfold gqlUseTicket at h
  split at h
  · exact absurd h (by simp)
  · cases h; rfl

theorem gqlVoidTicket_ticketTypes (db db' : DB) (id : String)
    (h : gqlVoidTicket db id = some db') : db'.ticketTypes = db.ticketTypes := by
  unfold gqlVoidTicket at h
  split at h
  · exact absurd h (by simp)
  · cases h; rfl

theorem quotaSoldOf_congr {db db' : DB} (h : db'.ticketTypes = db.ticketTypes)
    (id : String) : quotaSoldOf db' id = quotaSoldOf db id := by
  unfold quotaSoldOf findTicketType
  rw [h]

/-- C4 (amended): across every single reachable operation of the system,
`quotaSold` is never decremented: whenever a ticket type is present before and
after a step, its `quotaSold` after is at least its `quotaSold` before.  The
upper bound `quotaSold ≤ quotaTotal` of the original claim does not hold; see
the counterexample. -/
theorem C4_quotaSold_never_decremented (db db' : DB) (h : Step db db')
    (id : String) (s s' : Nat)
    (hs : quotaSoldOf db id = some s) (hs' : quotaSoldOf db' id = some s') :
    s ≤ s' := by
  have ofeq : ∀ dbx : DB, dbx.ticketTypes = db.ticketTypes →
      quotaSoldOf dbx id = some s' → s ≤ s' := by
    intro dbx he hx
    rw [quotaSoldOf_congr he, hs] at hx
    cases hx
    exact Nat.le_refl s
  cases h with
  | webhook n =>
    rcases webhook_ticketTypes db n with heq | ⟨items, heq⟩
    · exact ofeq _ heq hs'
    · obtain ⟨s2, hs2, hle⟩ :=
        quotaSold_mono_applyQuotaIncrements items db.ticketTypes id s hs
      have hx : quotaSoldOf (webhook db n).db id
          = ((applyQuotaIncrements db.ticketTypes items).find?
              (fun t => t.id == id)).map (fun t => t.quotaSold) := by
        unfold quotaSoldOf findTicketType
        rw [heq]
      rw [hx, hs2] at hs'
      cases hs'
      exact hle
  | createOrder db2 u c items now o hok =>
    exact ofeq _ (createOrder_preserves db _ u c items now o hok).1 hs'
  | cancelOrder u oid => exact ofeq _ (cancelOrder_ticketTypes db u oid) hs'
  | createPayment u oid now =>
    exact ofeq _ (createPayment_ticketTypes db u oid now) hs'
  | useTicket code now => exact ofeq _ (useTicket_ticketTypes db code now) hs'
  | gqlCreateOrder input => exact ofeq _ rfl hs'
  | gqlUpdateOrderStatus db2 oid st hok =>
    exact ofeq _ (gqlUpdateOrderStatus_ticketTypes db _ oid st hok) hs'
  | gqlCancelOrder db2 oid hok =>
    exact ofeq _ (gqlCancelOrder_ticketTypes db _ oid hok) hs'
  | gqlUseTicket code now db2 t hok =>
    exact ofeq _ (gqlUseTicket_ticketTypes db _ code now t hok) hs'
  | gqlVoidTicket db2 oid hok =>
    exact ofeq _ (gqlVoidTicket_ticketTypes db _ oid hok) hs'
  | gqlUpdateTicketType oid input =>
    obtain ⟨s2, hs2, hle⟩ := quotaSold_mono_updateWhere
      (fun t => t.id == oid)
      (fun t =>
        { t with
          name := input.name.getD t.name
          price := input.price.getD t.price
          quotaTotal := input.quotaTotal.getD t.quotaTotal })
      (fun t => rfl) (fun t => Nat.le_refl _) db.ticketTypes id s hs
    have hx : quotaSoldOf (gqlUpdateTicketType db oid input) id
        = ((updateWhere (fun t => t.id == oid)
            (fun t =>
              { t with
                name := input.name.getD t.name
                price := input.price.getD t.price
                quotaTotal := input.quotaTotal.getD t.quotaTotal })
            db.ticketTypes).find? (fun t => t.id == id)).map
          (fun t => t.quotaSold) := rfl
    rw [hx, hs2] at hs'
    cases hs'
    exact hle

/-- Witness for C4: the concrete settlement step on `dbAwaiting` takes
`quotaSold` of ticket type tt1 from 0 to 1, and the theorem applied to that
step yields 0 ≤ 1. -/
theorem C4_quotaSold_never_decremented_witness :
    quotaSoldOf dbAwaiting "tt1" = some 0
    ∧ quotaSoldOf (webhook dbAwaiting nSettle).db "tt1" = some 1
    ∧ (0 : Nat) ≤ 1 :=
  ⟨by decide, by decide,
    C4_quotaSold_never_decremented dbAwaiting (webhook dbAwaiting nSettle).db
      (Step.webhook dbAwaiting nSettle) "tt1" 0 1 (by decide) (by decide)⟩

/-- C5: for every notification whose provider status is one of the six rows
of the section 4.3 table, the webhook computes exactly the
(Payment.status, Order.status) pair of the table, for every current order
status.  The spec-side table is `specStatusTable`; an absent fraud verdict
covers both a missing and an empty field. -/
theorem C5_mapping_matches_spec_table (ts : String) (fs : Option String)
    (cur : OrderStatus) (p : PaymentStatus × OrderStatus)
    (h : specStatusTable ts fs = some p) :
    mapStatuses ts fs cur = p := by
  unfold specStatusTable at h
  unfold mapStatuses
  split_ifs at h ⊢ <;> simp_all

/-- Witness for C5 at the settlement/accept row. -/
theorem C5_mapping_matches_spec_table_witness :
    mapStatuses "settlement" (some "accept") .AWAITING_PAYMENT
      = (.SETTLED, .PAID) :=
  C5_mapping_matches_spec_table "settlement" (some "accept") .AWAITING_PAYMENT
    (.SETTLED, .PAID) (by decide)

def ttCheap : TicketType :=
  { id := "tt3", concertId := "c3", name := "Regular"
    price := 7, quotaTotal := 5, quotaSold := 0 }

def dbCatalog : DB :=
  { ticketTypes := [ttCheap], orders := [], payments := [], tickets := []
    nextCode := 0 }

def gqlBogusInput : GqlCreateOrderInput :=
  { userId := "u3", concertId := "c3", grossAmount := 999, expiresAt := 1000
    items := [{ ticketTypeId := "tt3", qty := 1, unitPrice := 5, subtotal := 5 }] }

/-- C6 counterexample: the GraphQL createOrder mutation persists an order
whose stored grossAmount (999) differs from the sum of its item subtotals (5)
and whose stored unitPrice (5) differs from the catalog price of the
referenced ticket type (7): the claim fails for orders created through this
reachable path. -/
theorem C6_counterexample_gql_create_ignores_catalog :
    priceOf dbCatalog "tt3" = some 7
    ∧ (gqlCreateOrder dbCatalog gqlBogusInput).2.grossAmount = 999
    ∧ ((gqlCreateOrder dbCatalog gqlBogusInput).2.orderItems.map
        (fun i => i.subtotal)).sum = 5
    ∧ ((gqlCreateOrder dbCatalog gqlBogusInput).2.orderItems.map
        (fun i => i.unitPrice)) = [5]
    ∧ (gqlCreateOrder dbCatalog gqlBogusInput).1.orders
        = [(gqlCreateOrder dbCatalog gqlBogusInput).2] := by
  decide

theorem buildOrderItems_spec (db : DB) :
    ∀ (items : List CreateItem) (oitems : List OrderItem),
      buildOrderItems db items = .ok oitems →
      ∀ oi ∈ oitems, ∃ tt, findTicketType db oi.ticketTypeId = some tt
        ∧ oi.unitPrice = tt.price ∧ oi.subtotal = oi.unitPrice * oi.qty := by
  intro items
  induction items with
  | nil =>
    intro oitems h oi hoi
    simp only [buildOrderItems, Except.ok.injEq] at h
    subst h
    cases hoi
  | cons item rest ih =>
    intro oitems h oi hoi
    unfold buildOrderItems at h
    cases hft : findTicketType db item.ticketTypeId with
    | none => rw [hft] at h; exact absurd h (by simp)
    | some tt =>
      rw [hft] at h
      cases hbr : buildOrderItems db rest with
      | error e => rw [hbr] at h; exact absurd h (by simp)
      | ok tail =>
        rw [hbr] at h
        simp only [Except.ok.injEq] at h
        subst h
        rcases List.mem_cons.mp hoi with h1 | h1
        · subst h1
          exact ⟨tt, hft, rfl, rfl⟩
        · exact ih tail hbr oi h1

/-- C6 (amended): every order created through the REST route stores, per item,
the catalog price current at creation time as unitPrice, subtotal equal to
unitPrice times qty, and a grossAmount equal to the sum of the item subtotals;
and a later catalog price update (the only price mutation in the system)
leaves the stored orders untouched.  The claim as stated over every created
order fails for the GraphQL creation path; see the counterexample. -/
theorem C6_rest_create_snapshots_prices (db db' : DB) (u c : String)
    (items : List CreateItem) (now : Nat) (o : Order)
    (h : createOrder db u c items now = .ok (db', o)) :
    o.grossAmount = (o.orderItems.map (fun i => i.subtotal)).sum
    ∧ (∀ oi ∈ o.orderItems, ∃ tt, findTicketType db oi.ticketTypeId = some tt
        ∧ oi.unitPrice = tt.price ∧ oi.subtotal = oi.unitPrice * oi.qty)
    ∧ (∀ id input, (gqlUpdateTicketType db' id input).orders = db'.orders) := by
  unfold createOrder at h
  split at h
  · exact absurd h (by simp)
  · cases hb : buildOrderItems db items with
    | error e => rw [hb] at h; exact absurd h (by simp)
    | ok oitems =>
      rw [hb] at h
      simp only [Except.ok.injEq, Prod.mk.injEq] at h
      obtain ⟨hdb, ho⟩ := h
      subst ho
      exact ⟨rfl, fun oi hoi => buildOrderItems_spec db items oitems hb oi hoi,
        fun id input => rfl⟩

def oSnap : Order :=
  { id := "order-0", userId := "u1", concertId := "c3"
    midtransOrderId := "ORDER-0", grossAmount := 14, expiresAt := 900000
    status := .PENDING
    orderItems := [{ ticketTypeId := "tt3", qty := 2, unitPrice := 7, subtotal := 14 }] }

def dbSnap : DB :=
  { dbCatalog with orders := [oSnap], nextCode := 1 }

/-- Witness for C6 on a concrete REST order against the catalog price 7. -/
theorem C6_rest_create_snapshots_prices_witness :
    oSnap.grossAmount = (oSnap.orderItems.map (fun i => i.subtotal)).sum :=
  (C6_rest_create_snapshots_prices dbCatalog dbSnap "u1" "c3"
    [{ ticketTypeId := "tt3", qty := 2 }] 0 oSnap (by rfl)).1

def orderStale : Order :=
  { id := "o7", userId := "u7", concertId := "c1", midtransOrderId := "ORDER-7"
    grossAmount := 10, expiresAt := 100, status := .PENDING, orderItems := [] }

def dbStale : DB :=
  { ticketTypes := [], orders := [orderStale], payments := [], tickets := []
    nextCode := 0 }

/-- C7: the claim says any read of an order past its expiry transitions it to
EXPIRED before returning, and that cancelOrder on it fails with InvalidState.
The GET handler takes no clock input at all, so for the stale order below
(expiry at time 100, hence past expiry at any later time) the read returns it
still PENDING, and the cancel route succeeds with 200 and CANCELLED instead of
failing. -/
theorem C7_stale_pending_order_remains_visible :
    (getOrder dbStale "u7" "o7").map (fun o => o.status) = some .PENDING
    ∧ (getOrder dbStale "u7" "o7").map (fun o => o.expiresAt) = some 100
    ∧ (cancelOrder dbStale "u7" "o7").http = 200
    ∧ orderStatusOf (cancelOrder dbStale "u7" "o7").db "o7" = some .CANCELLED := by
  decide

def ttOther : TicketType :=
  { id := "ttB", concertId := "concert-B", name := "B seat"
    price := 3, quotaTotal := 5, quotaSold := 0 }

def dbTwoConcerts : DB :=
  { ticketTypes := [ttOther], orders := [], payments := [], tickets := []
    nextCode := 0 }

/-- C8 counterexample: ticket type ttB belongs to concert-B, yet an order
against concert-A referencing ttB is accepted instead of failing with
InvalidInput. -/
theorem C8_counterexample_cross_concert_accepted :
    findTicketType dbTwoConcerts "ttB" = some ttOther
    ∧ ttOther.concertId = "concert-B"
    ∧ (createOrder dbTwoConcerts "u1" "concert-A"
        [{ ticketTypeId := "ttB", qty := 1 }] 0).isOk = true := by
  decide

theorem buildOrderItems_isOk (db : DB) :
    ∀ items : List CreateItem,
      (buildOrderItems db items).isOk = true
        ↔ ∀ it ∈ items, (findTicketType db it.ticketTypeId).isSome = true := by
  intro items
  induction items with
  | nil => simp [buildOrderItems, Except.isOk, Except.toBool]
  | cons item rest ih =>
    unfold buildOrderItems
    cases hft : findTicketType db item.ticketTypeId with
    | none => simp [hft, Except.isOk, Except.toBool]
    | some tt =>
      cases hbr : buildOrderItems db rest with
      | error e =>
        rw [hbr] at ih
        constructor
        · intro h
          exact absurd h (by simp [Except.isOk, Except.toBool])
        · intro h
          exact absurd
            (ih.mpr (fun it hit => h it (List.mem_cons_of_mem _ hit)))
            (by simp [Except.isOk, Except.toBool])
      | ok tail =>
        rw [hbr] at ih
        constructor
        · intro _ it hit
          rcases List.mem_cons.mp hit with h1 | h1
          · subst h1; simp [hft]
          · exact ih.mp (by simp [Except.isOk, Except.toBool]) it h1
        · intro _
          simp [Except.isOk, Except.toBool]

/-- C8 (amended): the REST createOrder succeeds exactly when the concert id is
non-empty, the item list is non-empty, and every requested ticketTypeId exists
in the catalog; whether the ticket type belongs to the requested concert is
never consulted (counterexample above).  On failure the route returns 400 and,
since the error is raised before `prisma.order.create`, no Order or OrderItem
row is written. -/
theorem C8_create_checks_existence_only (db : DB) (u c : String)
    (items : List CreateItem) (now : Nat) :
    (createOrder db u c items now).isOk = true
      ↔ (¬ c = "" ∧ ¬ items = []
          ∧ ∀ it ∈ items, (findTicketType db it.ticketTypeId).isSome = true) := by
  unfold createOrder
  by_cases hg : c = "" ∨ items.isEmpty = true
  · rw [if_pos hg]
    constructor
    · intro h
      exact absurd h (by simp [Except.isOk, Except.toBool])
    · rintro ⟨hc, hi, -⟩
      rcases hg with hg | hg
      · exact absurd hg hc
      · exact absurd (List.isEmpty_iff.mp hg) hi
  · rw [if_neg hg]
    obtain ⟨hc, hi⟩ := not_or.mp hg
    have hi2 : ¬ items = [] := fun he => hi (by simp [he])
    have hbo := buildOrderItems_isOk db items
    cases hb : buildOrderItems db items with
    | error e =>
      rw [hb] at hbo
      constructor
      · intro h
        exact absurd h (by simp [Except.isOk, Except.toBool])
      · rintro ⟨-, -, hall⟩
        exact absurd (hbo.mpr hall) (by simp [Except.isOk, Except.toBool])
    | ok oitems =>
      rw [hb] at hbo
      constructor
      · intro _
        exact ⟨hc, hi2, hbo.mp (by simp [Except.isOk, Except.toBool])⟩
      · intro _
        simp [Except.isOk, Except.toBool]

def ticketUsed : Ticket :=
  { id := "tk1", orderId := "o1", userId := "u1", concertId := "c1"
    ticketTypeId := "tt1", code := "TKT-A", status := .USED, usedAt := some 5 }

def dbUsed : DB :=
  { ticketTypes := [], orders := [], payments := [], tickets := [ticketUsed]
    nextCode := 0 }

/-- C9 counterexample: through the GraphQL mutation, a second use of an
already USED ticket succeeds again instead of failing with InvalidState: the
mutation returns the ticket and silently overwrites usedAt from 5 to 9. -/
theorem C9_counterexample_gql_double_use :
    usedAtOf dbUsed "TKT-A" = some (some 5)
    ∧ ticketStatusOf dbUsed "TKT-A" = some .USED
    ∧ (gqlUseTicket dbUsed "TKT-A" 9).isSome = true
    ∧ (gqlUseTicket dbUsed "TKT-A" 9).map (fun r => usedAtOf r.1 "TKT-A")
        = some (some (some 9)) := by
  decide

/-- C9 (amended): the REST use endpoint enforces single-use: on an ISSUED
ticket it returns 200 and marks the ticket USED with usedAt recorded; on any
non-ISSUED ticket it returns 400 with a message reporting the current status
and leaves the database unchanged.  The GraphQL useTicket mutation does not
enforce this (counterexample above). -/
theorem C9_rest_use_enforces_single_use (db : DB) (code : String) (now : Nat)
    (t : Ticket) (hfind : db.tickets.find? (fun u => u.code == code) = some t) :
    (t.status = .ISSUED →
      (useTicket db code now).http = 200
      ∧ ticketStatusOf (useTicket db code now).db code = some .USED
      ∧ usedAtOf (useTicket db code now).db code = some (some now))
    ∧ (¬ t.status = .ISSUED →
      (useTicket db code now).http = 400
      ∧ (useTicket db code now).message = "Ticket already " ++ t.status.text
      ∧ (useTicket db code now).db = db) := by
  unfold useTicket
  rw [hfind]
  dsimp only
  have hp : t.code = code := by simpa using List.find?_some hfind
  constructor
  · intro hst
    rw [if_pos hst]
    refine ⟨rfl, ?_, ?_⟩
    · unfold ticketStatusOf ticketFor
      dsimp only
      rw [find?_updateWhere (fun u : Ticket => u.code == code)
        (fun u => { u with status := .USED, usedAt := some now })
        (fun a ha => ha), hfind]
      simp [hp]
    · unfold usedAtOf ticketFor
      dsimp only
      rw [find?_updateWhere (fun u : Ticket => u.code == code)
        (fun u => { u with status := .USED, usedAt := some now })
        (fun a ha => ha), hfind]
      simp [hp]
  · intro hst
    rw [if_neg hst]
    exact ⟨rfl, rfl, rfl⟩

/-- Witness for C9: on the concrete USED ticket the second REST use returns
400 with the current status in the message and changes nothing. -/
theorem C9_rest_use_enforces_single_use_witness :
    (useTicket dbUsed "TKT-A" 9).http = 400
    ∧ (useTicket dbUsed "TKT-A" 9).message
        = "Ticket already " ++ ticketUsed.status.text
    ∧ (useTicket dbUsed "TKT-A" 9).db = dbUsed :=
  (C9_rest_use_enforces_single_use dbUsed "TKT-A" 9 ticketUsed (by rfl)).2
    (by decide)

/-- C10: a webhook notification whose transaction status is none of the six
recognized values, but whose order id resolves, is acknowledged with 200,
overwrites the payment status to PENDING whatever it was before, stores the
raw payload, leaves the order status at its current value, and issues no
tickets. -/
theorem C10_unrecognized_status_resets_payment (db : DB) (n : Notification)
    (o : Order)
    (hfind : db.orders.find? (fun x => x.midtransOrderId == n.order_id) = some o)
    (hts : ¬ n.transaction_status ∈
      (["capture", "settlement", "pending", "deny", "cancel", "expire",
        "refund"] : List String)) :
    (webhook db n).http = 200
    ∧ paymentStatusOf (webhook db n).db o.id = some .PENDING
    ∧ rawPayloadOf (webhook db n).db o.id = some (some n)
    ∧ orderStatusOf (webhook db n).db o.id = some o.status
    ∧ (webhook db n).db.tickets = db.tickets := by
  have hmap : mapStatuses n.transaction_status n.fraud_status o.status
      = (.PENDING, o.status) := by
    unfold mapStatuses
    simp only [List.mem_cons, List.not_mem_nil, or_false] at hts
    push_neg at hts
    obtain ⟨h1, h2, h3, h4, h5, h6, h7⟩ := hts
    rw [if_neg (by tauto), if_neg h3, if_neg (by tauto), if_neg h6, if_neg h7]
  unfold webhook
  rw [hfind]
  dsimp only
  rw [hmap]
  dsimp only
  rw [if_neg (by simp)]
  refine ⟨rfl, ?_, ?_, ?_, rfl⟩
  · unfold paymentStatusOf paymentFor applyNotification
    dsimp only
    rw [paymentFor_upsertPayment db.payments o.id
      { orderId := o.id, provider := "MIDTRANS", status := .PENDING
        snapToken := none, transactionStatus := some n.transaction_status
        fraudStatus := n.fraud_status, rawPayloadJson := some n }
      (fun p =>
        { p with
          status := .PENDING
          transactionStatus := some n.transaction_status
          fraudStatus := n.fraud_status
          rawPayloadJson := some n })
      (by simp) (fun p => rfl)]
    cases db.payments.find? (fun p => p.orderId == o.id) <;> rfl
  · unfold rawPayloadOf paymentFor applyNotification
    dsimp only
    rw [paymentFor_upsertPayment db.payments o.id
      { orderId := o.id, provider := "MIDTRANS", status := .PENDING
        snapToken := none, transactionStatus := some n.transaction_status
        fraudStatus := n.fraud_status, rawPayloadJson := some n }
      (fun p =>
        { p with
          status := .PENDING
          transactionStatus := some n.transaction_status
          fraudStatus := n.fraud_status
          rawPayloadJson := some n })
      (by simp) (fun p => rfl)]
    cases db.payments.find? (fun p => p.orderId == o.id) <;> rfl
  · unfold orderStatusOf findOrderById applyNotification
    dsimp only
    exact statusOf_setOrderStatus db.orders o.id o.status
      ⟨o, List.mem_of_find?_eq_some hfind, by simp⟩

def nUnknown : Notification :=
  { order_id := "ORDER-1", transaction_status := "authorize"
    fraud_status := none, signature_key := none }

/-- Witness for C10 with the unrecognized provider status `authorize` against
the concrete awaiting order. -/
theorem C10_unrecognized_status_resets_payment_witness :
    (webhook dbAwaiting nUnknown).http = 200
    ∧ paymentStatusOf (webhook dbAwaiting nUnknown).db "o1" = some .PENDING
    ∧ rawPayloadOf (webhook dbAwaiting nUnknown).db "o1" = some (some nUnknown)
    ∧ orderStatusOf (webhook dbAwaiting nUnknown).db "o1"
        = some .AWAITING_PAYMENT
    ∧ (webhook dbAwaiting nUnknown).db.tickets = dbAwaiting.tickets :=
  C10_unrecognized_status_resets_payment dbAwaiting nUnknown orderAwaiting
    (by rfl) (by decide)

end Ticketing
